import Mathlib

/-!
Verification development for the Decluttered.ai pipeline-coordination core.

The Python agents are embedded shallowly: each message handler becomes a pure
Lean function from an explicit state (the module-level mutable state of the
agent) and the inbound message to the successor state together with the
message(s) the handler sends (or the value it composes).  External
collaborators (the YOLO detector, the Gemini vision model, the recognition
HTTP API, PIL image I/O) are modelled as oracle parameters carrying exactly
the information the handler reads from them.  Python dictionaries are
modelled as insertion-ordered association lists with first-key update, which
is the observable semantics of dict assignment and iteration in CPython.
-/

namespace Decluttered

/-- Model of CPython dict lookup `d.get(k)` / `d[k]` on an insertion-ordered
association list: the first (and, under the dict key invariant, only) binding
of the key. -/
def assocLookup {α β : Type} [DecidableEq α] : List (α × β) → α → Option β
  | [], _ => none
  | e :: rest, k => if e.1 = k then some e.2 else assocLookup rest k

/-- Model of CPython dict assignment `d[k] = v`: replace the binding in place
if the key is present, otherwise append the new binding at the end
(insertion order). -/
def pyDictInsert {α β : Type} [DecidableEq α] : List (α × β) → α → β → List (α × β)
  | [], k, v => [(k, v)]
  | e :: rest, k, v => if e.1 = k then (k, v) :: rest else e :: pyDictInsert rest k v

/-- Dict key invariant: each key bound at most once. -/
@[reducible] def keysNodup {α β : Type} (d : List (α × β)) : Prop := (d.map Prod.fst).Nodup

/-- Model of Python `set.add` on a set represented as a dedup-ordered list. -/
def setAdd {α : Type} [DecidableEq α] (s : List α) (x : α) : List α :=
  if x ∈ s then s else s ++ [x]

/-- ASCII model of Python `str.lower` on one character. -/
def pyLowerChar (c : Char) : Char :=
  if 'A' ≤ c ∧ c ≤ 'Z' then Char.ofNat (c.toNat + 32) else c

/-- ASCII model of Python `str.lower`. -/
def pyLower (s : String) : String := ⟨s.data.map pyLowerChar⟩

/-- Model of the Python f-string rendering of an `Optional[str]` value:
`None` prints as the four-character string. -/
def pyOptStr : Option String → String
  | none => "None"
  | some s => s

/-- Model of Python truthiness of an `Optional[str]`: `None` and the empty
string are falsy. -/
def pyStrFalsy : Option String → Bool
  | none => true
  | some s => decide (s = "")

theorem assocLookup_pyDictInsert_self {α β : Type} [DecidableEq α]
    (d : List (α × β)) (k : α) (v : β) :
    assocLookup (pyDictInsert d k v) k = some v := by
  induction d with
  | nil => simp [pyDictInsert, assocLookup]
  | cons e rest ih =>
    by_cases h : e.1 = k
    · simp [pyDictInsert, assocLookup, h]
    · simp [pyDictInsert, assocLookup, h, ih]

theorem assocLookup_pyDictInsert_ne {α β : Type} [DecidableEq α]
    (d : List (α × β)) (k k' : α) (v : β) (h : k' ≠ k) :
    assocLookup (pyDictInsert d k v) k' = assocLookup d k' := by
  induction d with
  | nil =>
    simp only [pyDictInsert, assocLookup]
    rw [if_neg (fun h2 => h h2.symm)]
  | cons e rest ih =>
    by_cases he : e.1 = k
    · subst he
      simp only [pyDictInsert, if_pos rfl, assocLookup]
      rw [if_neg (fun h2 => h h2.symm), if_neg (fun h2 => h h2.symm)]
    · simp only [pyDictInsert, if_neg he, assocLookup, ih]

theorem pyDictInsert_keys_of_mem {α β : Type} [DecidableEq α]
    (d : List (α × β)) (k : α) (v : β) (h : k ∈ d.map Prod.fst) :
    (pyDictInsert d k v).map Prod.fst = d.map Prod.fst := by
  induction d with
  | nil => simp at h
  | cons e rest ih =>
    by_cases he : e.1 = k
    · simp [pyDictInsert, he]
    · simp only [List.map_cons, List.mem_cons] at h
      rcases h with h | h
      · exact absurd h.symm he
      · simp [pyDictInsert, he, ih h]

theorem pyDictInsert_of_not_mem {α β : Type} [DecidableEq α]
    (d : List (α × β)) (k : α) (v : β) (h : k ∉ d.map Prod.fst) :
    pyDictInsert d k v = d ++ [(k, v)] := by
  induction d with
  | nil => simp [pyDictInsert]
  | cons e rest ih =>
    simp only [List.map_cons, List.mem_cons, not_or] at h
    have hne : ¬ e.1 = k := fun h2 => h.1 h2.symm
    simp [pyDictInsert, hne, ih h.2]

theorem keysNodup_pyDictInsert {α β : Type} [DecidableEq α]
    (d : List (α × β)) (k : α) (v : β) (h : keysNodup d) :
    keysNodup (pyDictInsert d k v) := by
  by_cases hm : k ∈ d.map Prod.fst
  · unfold keysNodup
    rw [pyDictInsert_keys_of_mem d k v hm]
    exact h
  · unfold keysNodup
    rw [pyDictInsert_of_not_mem d k v hm]
    simp only [List.map_append, List.map_cons, List.map_nil]
    exact List.Nodup.append h (List.nodup_singleton k)
      (by simpa [List.disjoint_singleton] using hm)

theorem assocLookup_eq_some_of_mem {α β : Type} [DecidableEq α]
    {d : List (α × β)} {k : α} {v : β} (hnd : keysNodup d) (h : (k, v) ∈ d) :
    assocLookup d k = some v := by
  induction d with
  | nil => simp at h
  | cons e rest ih =>
    simp only [List.mem_cons] at h
    unfold keysNodup at hnd
    simp only [List.map_cons, List.nodup_cons] at hnd
    rcases h with h | h
    · simp [assocLookup, ← h]
    · have hk : e.1 ≠ k := by
        intro he
        exact hnd.1 (he ▸ (List.mem_map.2 ⟨(k, v), h, rfl⟩))
      simp [assocLookup, hk, ih hnd.2 h]

theorem mem_of_assocLookup_eq_some {α β : Type} [DecidableEq α]
    {d : List (α × β)} {k : α} {v : β} (h : assocLookup d k = some v) :
    (k, v) ∈ d := by
  induction d with
  | nil => simp [assocLookup] at h
  | cons e rest ih =>
    by_cases he : e.1 = k
    · simp only [assocLookup, if_pos he, Option.some.injEq] at h
      have he2 : e = (k, v) := Prod.ext_iff.2 ⟨he, h⟩
      rw [← he2]
      exact List.mem_cons_self e rest
    · simp only [assocLookup, if_neg he] at h
      exact List.mem_cons_of_mem _ (ih h)

/-- Model of Python `str.strip("()")`: remove leading and trailing characters
belonging to the two-character set. -/
def stripParens (l : List Char) : List Char :=
  ((((l.dropWhile fun c => c = '(' ∨ c = ')').reverse).dropWhile
      fun c => c = '(' ∨ c = ')')).reverse

/-- Model of Python `s.split(", ")`: left-to-right non-overlapping split on
the two-character separator, keeping empty pieces. -/
def splitCommaSpace : List Char → List (List Char)
  | [] => [[]]
  | ',' :: ' ' :: rest => [] :: splitCommaSpace rest
  | c :: rest =>
    match splitCommaSpace rest with
    | h :: t => (c :: h) :: t
    | [] => [[c]]

/-- Digit tail of a Python integer literal: decimal digits in which a single
underscore may stand strictly between two digits.  The accumulator carries
the value of the digits consumed so far. -/
def pyNatTail : Nat → List Char → Option Nat
  | acc, [] => some acc
  | acc, '_' :: c :: rest =>
    if c.isDigit then pyNatTail (acc * 10 + (c.toNat - 48)) rest else none
  | _, ['_'] => none
  | acc, c :: rest =>
    if c.isDigit then pyNatTail (acc * 10 + (c.toNat - 48)) rest else none

/-- Unsigned part of Python `int(...)`: one or more decimal digits, with
underscores allowed only between digits. -/
def pyNatCore : List Char → Option Nat
  | [] => none
  | '_' :: _ => none
  | c :: rest => if c.isDigit then pyNatTail (c.toNat - 48) rest else none

/-- Model of Python `int(s)` on ASCII input: surrounding whitespace is
stripped, an optional single sign precedes the digits, and any other shape
raises (returns `none`).  Unicode digits are outside the model. -/
def pyParseInt (l : List Char) : Option Int :=
  let t := (l.dropWhile Char.isWhitespace).reverse.dropWhile Char.isWhitespace |>.reverse
  match t with
  | '-' :: rest => (pyNatCore rest).map fun n => -(n : Int)
  | '+' :: rest => (pyNatCore rest).map fun n => (n : Int)
  | rest => (pyNatCore rest).map fun n => (n : Int)

/-- Shared coordinate-key parser: `coords_str.strip("()")`, split on `", "`,
each piece through `int`, and exactly four values (tuple unpacking into
`x_min, y_min, x_max, y_max` raises otherwise). -/
def parseCoords4 (s : String) : Option (Int × Int × Int × Int) :=
  match (splitCommaSpace (stripParens s.data)).mapM pyParseInt with
  | some [a, b, c, d] => some (a, b, c, d)
  | _ => none

namespace DetectionAgent

/-- Model of `detection_agent.calculate_bbox_area`: parse the coordinate key
and return `(x_max - x_min) * (y_max - y_min)`; any parse failure yields the
Python float `0.0`, modelled as the integer `0` (every parsed area is an
integer and the only consumer compares areas). -/
def calculate_bbox_area (coords_str : String) : Int :=
  match parseCoords4 coords_str with
  | some (x_min, y_min, x_max, y_max) => (x_max - x_min) * (y_max - y_min)
  | none => 0

/-- One iteration of the `select_largest_instances` loop over
`all_detections.items()`: `class_largest` maps a class name to the coordinate
key and area of its current champion, replaced only on strictly greater
area. -/
def selStep (acc : List (String × (String × Int))) (e : String × String) :
    List (String × (String × Int)) :=
  let area := calculate_bbox_area e.1
  match assocLookup acc e.2 with
  | none => pyDictInsert acc e.2 (e.1, area)
  | some cur => if area > cur.2 then pyDictInsert acc e.2 (e.1, area) else acc

/-- Model of `detection_agent.select_largest_instances`: fold the detection
dict into `class_largest`, then rebuild a detections dict from the champions
in class insertion order. -/
def select_largest_instances (all_detections : List (String × String)) :
    List (String × String) :=
  let class_largest := all_detections.foldl selStep []
  class_largest.foldl (fun acc e => pyDictInsert acc e.2.1 e.1) []

/-- Champion update along a run of same-class detections: fold the strictly
greater-area replacement rule from a current champion. -/
def runBest (cur : String × Int) (l : List (String × String)) : String × Int :=
  l.foldl
    (fun b e =>
      if calculate_bbox_area e.1 > b.2 then (e.1, calculate_bbox_area e.1) else b)
    cur

/-- Entries of the detection dict carrying a given class label, in iteration
order. -/
def classEntries (d : List (String × String)) (c : String) :
    List (String × String) :=
  d.filter fun e => decide (e.2 = c)

theorem runBest_cons (cur : String × Int) (e : String × String)
    (l : List (String × String)) :
    runBest cur (e :: l) =
      runBest
        (if calculate_bbox_area e.1 > cur.2 then (e.1, calculate_bbox_area e.1)
         else cur) l := rfl

theorem runBest_mem (l : List (String × String)) (cur : String × Int) :
    runBest cur l = cur ∨
      ∃ e ∈ l, runBest cur l = (e.1, calculate_bbox_area e.1) := by
  induction l generalizing cur with
  | nil => exact Or.inl rfl
  | cons e t ih =>
    rw [runBest_cons]
    by_cases h : calculate_bbox_area e.1 > cur.2
    · rw [if_pos h]
      rcases ih (e.1, calculate_bbox_area e.1) with h2 | ⟨e2, he2, h2⟩
      · exact Or.inr ⟨e, List.mem_cons_self e t, h2⟩
      · exact Or.inr ⟨e2, List.mem_cons_of_mem e he2, h2⟩
    · rw [if_neg h]
      rcases ih cur with h2 | ⟨e2, he2, h2⟩
      · exact Or.inl h2
      · exact Or.inr ⟨e2, List.mem_cons_of_mem e he2, h2⟩

end DetectionAgent

/-- Pointwise-equal predicates find the same element. -/
theorem find?_ext {α : Type} (l : List α) (p q : α → Bool)
    (h : ∀ x ∈ l, p x = q x) : l.find? p = l.find? q := by
  induction l with
  | nil => rfl
  | cons x t ih =>
    have hx := h x (List.mem_cons_self x t)
    by_cases hp : p x = true
    · rw [List.find?_cons_of_pos _ hp, List.find?_cons_of_pos _ (hx ▸ hp)]
    · rw [List.find?_cons_of_neg _ hp, List.find?_cons_of_neg _ (hx ▸ hp)]
      exact ih fun y hy => h y (List.mem_cons_of_mem x hy)

/-- Strengthening the predicate of a successful search keeps the found
element, provided the stronger predicate implies the weaker one and still
holds at the found element. -/
theorem find?_of_stronger {α : Type} (l : List α) (p q : α → Bool)
    (himp : ∀ x ∈ l, q x = true → p x = true) (w : α)
    (hfp : l.find? p = some w) (hqw : q w = true) : l.find? q = some w := by
  induction l with
  | nil => simp at hfp
  | cons x t ih =>
    by_cases hp : p x = true
    · rw [List.find?_cons_of_pos _ hp] at hfp
      injection hfp with hw
      subst hw
      exact List.find?_cons_of_pos _ hqw
    · have hq : ¬ q x = true := fun h2 =>
        hp (himp x (List.mem_cons_self x t) h2)
      rw [List.find?_cons_of_neg _ hp] at hfp
      rw [List.find?_cons_of_neg _ hq]
      exact ih (fun y hy => himp y (List.mem_cons_of_mem x hy)) hfp

namespace DetectionAgent

/-- First-maximum predicate over a run of same-class detection entries: the
entry dominates every entry of the run by area. -/
def maxPred (E : List (String × String)) (e : String × String) : Bool :=
  decide (∀ e2 ∈ E, calculate_bbox_area e2.1 ≤ calculate_bbox_area e.1)

/-- The strictly-greater fold from a nonempty run selects exactly the first
entry of maximal area, matching the first-maximum search. -/
theorem find?_first_max (rest : List (String × String)) :
    ∀ e0 : String × String,
      ∃ w,
        ((e0 :: rest).find? (maxPred (e0 :: rest))) = some w ∧
          runBest (e0.1, calculate_bbox_area e0.1) rest =
            (w.1, calculate_bbox_area w.1) := by
  induction rest with
  | nil =>
    intro e0
    refine ⟨e0, ?_, rfl⟩
    apply List.find?_cons_of_pos
    simp [maxPred]
  | cons e1 rest2 ih =>
    intro e0
    by_cases hgt : calculate_bbox_area e1.1 > calculate_bbox_area e0.1
    · obtain ⟨w, hfind, hrun⟩ := ih e1
      refine ⟨w, ?_, ?_⟩
      · have hneg : ¬ (maxPred (e0 :: e1 :: rest2) e0 = true) := by
          simp only [maxPred, decide_eq_true_eq]
          intro hall
          exact absurd (hall e1 (by simp)) (not_le.2 hgt)
        rw [List.find?_cons_of_neg _ hneg]
        have hwsub :
            (∀ e2 ∈ e1 :: rest2,
              calculate_bbox_area e2.1 ≤ calculate_bbox_area w.1) := by
          have := List.find?_some hfind
          simpa [maxPred] using this
        refine find?_of_stronger _ _ _ ?_ w hfind ?_
        · intro x hx h2
          simp only [maxPred, decide_eq_true_eq] at h2 ⊢
          intro e2 he2
          exact h2 e2 (List.mem_cons_of_mem e0 he2)
        · simp only [maxPred, decide_eq_true_eq]
          intro e2 he2
          rcases List.mem_cons.1 he2 with h2 | h2
          · subst h2
            exact le_trans (le_of_lt hgt) (hwsub e1 (List.mem_cons_self e1 rest2))
          · exact hwsub e2 h2
      · rw [runBest_cons, if_pos hgt]
        exact hrun
    · obtain ⟨w, hfind, hrun⟩ := ih e0
      refine ⟨w, ?_, ?_⟩
      · by_cases hpm : maxPred (e0 :: rest2) e0 = true
        · have hw0 : w = e0 := by
            rw [List.find?_cons_of_pos _ hpm] at hfind
            injection hfind with h2
            exact h2.symm
          rw [hw0]
          apply List.find?_cons_of_pos
          simp only [maxPred, decide_eq_true_eq] at hpm ⊢
          intro e2 he2
          rcases List.mem_cons.1 he2 with h2 | h2
          · subst h2
            exact le_refl _
          · rcases List.mem_cons.1 h2 with h3 | h3
            · subst h3
              exact le_of_not_lt hgt
            · exact hpm e2 (List.mem_cons_of_mem e0 h3)
        · have hex : ∃ y ∈ e0 :: rest2,
              calculate_bbox_area e0.1 < calculate_bbox_area y.1 := by
            simp only [maxPred, decide_eq_true_eq] at hpm
            push_neg at hpm
            exact hpm
          obtain ⟨y, hy, hylt⟩ := hex
          have hyfull : y ∈ e0 :: e1 :: rest2 := by
            rcases List.mem_cons.1 hy with h2 | h2
            · exact h2 ▸ List.mem_cons_self e0 (e1 :: rest2)
            · exact List.mem_cons_of_mem e0 (List.mem_cons_of_mem e1 h2)
          have hn0 : ¬ (maxPred (e0 :: e1 :: rest2) e0 = true) := by
            simp only [maxPred, decide_eq_true_eq]
            intro hall
            exact absurd (hall y hyfull) (not_le.2 hylt)
          have hn1 : ¬ (maxPred (e0 :: e1 :: rest2) e1 = true) := by
            simp only [maxPred, decide_eq_true_eq]
            intro hall
            exact absurd (hall y hyfull)
              (not_le.2 (lt_of_le_of_lt (le_of_not_lt hgt) hylt))
          rw [List.find?_cons_of_neg _ hn0, List.find?_cons_of_neg _ hn1]
          rw [List.find?_cons_of_neg _ hpm] at hfind
          have hwmid :
              (∀ e2 ∈ e0 :: rest2,
                calculate_bbox_area e2.1 ≤ calculate_bbox_area w.1) := by
            have := List.find?_some hfind
            simpa [maxPred] using this
          refine find?_of_stronger _ _ _ ?_ w hfind ?_
          · intro x hx h2
            simp only [maxPred, decide_eq_true_eq] at h2 ⊢
            intro e2 he2
            rcases List.mem_cons.1 he2 with h3 | h3
            · exact h2 e2 (h3 ▸ List.mem_cons_self e0 (e1 :: rest2))
            · exact h2 e2 (List.mem_cons_of_mem e0 (List.mem_cons_of_mem e1 h3))
          · simp only [maxPred, decide_eq_true_eq]
            intro e2 he2
            rcases List.mem_cons.1 he2 with h3 | h3
            · exact h3 ▸ hwmid e0 (List.mem_cons_self e0 rest2)
            · rcases List.mem_cons.1 h3 with h4 | h4
              · subst h4
                exact le_trans (le_of_not_lt hgt)
                  (hwmid e0 (List.mem_cons_self e0 rest2))
              · exact hwmid e2 (List.mem_cons_of_mem e0 h4)
      · rw [runBest_cons, if_neg hgt]
        exact hrun

theorem mem_classEntries {d : List (String × String)} {c : String}
    {e : String × String} (h : e ∈ classEntries d c) : e ∈ d ∧ e.2 = c := by
  simpa [classEntries, List.mem_filter] using h

theorem classEntries_cons_pos {e : String × String} {c : String}
    (t : List (String × String)) (he : e.2 = c) :
    classEntries (e :: t) c = e :: classEntries t c := by
  simp [classEntries, List.filter_cons, he]

theorem classEntries_cons_neg {e : String × String} {c : String}
    (t : List (String × String)) (he : ¬ e.2 = c) :
    classEntries (e :: t) c = classEntries t c := by
  simp [classEntries, List.filter_cons, he]

theorem selStep_none (acc : List (String × (String × Int)))
    (e : String × String) (h : assocLookup acc e.2 = none) :
    selStep acc e = pyDictInsert acc e.2 (e.1, calculate_bbox_area e.1) := by
  unfold selStep
  rw [h]

theorem selStep_some (acc : List (String × (String × Int)))
    (e : String × String) (cur : String × Int)
    (h : assocLookup acc e.2 = some cur) :
    selStep acc e =
      if calculate_bbox_area e.1 > cur.2 then
        pyDictInsert acc e.2 (e.1, calculate_bbox_area e.1)
      else acc := by
  unfold selStep
  rw [h]

theorem assocLookup_selStep_ne (acc : List (String × (String × Int)))
    (e : String × String) (c : String) (h : ¬ e.2 = c) :
    assocLookup (selStep acc e) c = assocLookup acc c := by
  cases hl : assocLookup acc e.2 with
  | none =>
    rw [selStep_none acc e hl]
    exact assocLookup_pyDictInsert_ne acc e.2 c _ fun h2 => h h2.symm
  | some cur =>
    rw [selStep_some acc e cur hl]
    split_ifs with ha
    · exact assocLookup_pyDictInsert_ne acc e.2 c _ fun h2 => h h2.symm
    · rfl

theorem assocLookup_foldl_selStep_some :
    ∀ (l : List (String × String)) (acc : List (String × (String × Int)))
      (c : String) (cur : String × Int),
      assocLookup acc c = some cur →
      assocLookup (l.foldl selStep acc) c =
        some (runBest cur (classEntries l c)) := by
  intro l
  induction l with
  | nil =>
    intro acc c cur h
    simpa [classEntries, runBest] using h
  | cons e t ih =>
    intro acc c cur h
    rw [List.foldl_cons]
    by_cases he : e.2 = c
    · have hacc : assocLookup acc e.2 = some cur := by rw [he]; exact h
      have hsel : assocLookup (selStep acc e) c =
          some (if calculate_bbox_area e.1 > cur.2
            then (e.1, calculate_bbox_area e.1) else cur) := by
        rw [selStep_some acc e cur hacc]
        split_ifs with ha
        · rw [← he]
          exact assocLookup_pyDictInsert_self acc e.2 _
        · exact h
      rw [ih (selStep acc e) c _ hsel, classEntries_cons_pos t he, runBest_cons]
    · have hsel : assocLookup (selStep acc e) c = some cur := by
        rw [assocLookup_selStep_ne acc e c he]
        exact h
      rw [ih (selStep acc e) c _ hsel, classEntries_cons_neg t he]

theorem assocLookup_foldl_selStep_none :
    ∀ (l : List (String × String)) (acc : List (String × (String × Int)))
      (c : String),
      assocLookup acc c = none →
      (classEntries l c = [] ∧ assocLookup (l.foldl selStep acc) c = none) ∨
        (∃ e rest, classEntries l c = e :: rest ∧
          assocLookup (l.foldl selStep acc) c =
            some (runBest (e.1, calculate_bbox_area e.1) rest)) := by
  intro l
  induction l with
  | nil =>
    intro acc c h
    exact Or.inl ⟨rfl, h⟩
  | cons e t ih =>
    intro acc c h
    rw [List.foldl_cons]
    by_cases he : e.2 = c
    · have hacc : assocLookup acc e.2 = none := by rw [he]; exact h
      have hsel : assocLookup (selStep acc e) c =
          some (e.1, calculate_bbox_area e.1) := by
        rw [selStep_none acc e hacc, ← he]
        exact assocLookup_pyDictInsert_self acc e.2 _
      refine Or.inr ⟨e, classEntries t c, classEntries_cons_pos t he, ?_⟩
      exact assocLookup_foldl_selStep_some t (selStep acc e) c _ hsel
    · have hsel : assocLookup (selStep acc e) c = none := by
        rw [assocLookup_selStep_ne acc e c he]
        exact h
      rcases ih (selStep acc e) c hsel with ⟨h1, h2⟩ | ⟨e2, rest, h1, h2⟩
      · exact Or.inl ⟨by rw [classEntries_cons_neg t he]; exact h1, h2⟩
      · exact Or.inr ⟨e2, rest, by rw [classEntries_cons_neg t he]; exact h1, h2⟩

theorem champion_spec (d : List (String × String)) (c k : String) (a : Int)
    (h : assocLookup (d.foldl selStep []) c = some (k, a)) :
    (k, c) ∈ d ∧ a = calculate_bbox_area k := by
  rcases assocLookup_foldl_selStep_none d [] c rfl with ⟨hE, hn⟩ | ⟨e, rest, hE, hs⟩
  · rw [hn] at h
    exact absurd h (by simp)
  · rw [hs] at h
    injection h with h2
    rcases runBest_mem rest (e.1, calculate_bbox_area e.1) with hr | ⟨e2, he2, hr⟩
    · rw [hr] at h2
      have hk : e.1 = k := congrArg Prod.fst h2
      have ha : calculate_bbox_area e.1 = a := congrArg Prod.snd h2
      have hmem : e ∈ classEntries d c := by
        rw [hE]
        exact List.mem_cons_self e rest
      have hed := mem_classEntries hmem
      refine ⟨?_, by rw [← ha, hk]⟩
      have : e = (k, c) := Prod.ext_iff.2 ⟨hk, hed.2⟩
      exact this ▸ hed.1
    · rw [hr] at h2
      have hk : e2.1 = k := congrArg Prod.fst h2
      have ha : calculate_bbox_area e2.1 = a := congrArg Prod.snd h2
      have hmem : e2 ∈ classEntries d c := by
        rw [hE]
        exact List.mem_cons_of_mem e he2
      have hed := mem_classEntries hmem
      refine ⟨?_, by rw [← ha, hk]⟩
      have : e2 = (k, c) := Prod.ext_iff.2 ⟨hk, hed.2⟩
      exact this ▸ hed.1

theorem keysNodup_selStep (acc : List (String × (String × Int)))
    (e : String × String) (h : keysNodup acc) : keysNodup (selStep acc e) := by
  cases hl : assocLookup acc e.2 with
  | none =>
    rw [selStep_none acc e hl]
    exact keysNodup_pyDictInsert acc e.2 _ h
  | some cur =>
    rw [selStep_some acc e cur hl]
    split_ifs with ha
    · exact keysNodup_pyDictInsert acc e.2 _ h
    · exact h

theorem keysNodup_foldl_selStep (l : List (String × String)) :
    ∀ acc, keysNodup acc → keysNodup (l.foldl selStep acc) := by
  induction l with
  | nil => intro acc h; exact h
  | cons e t ih =>
    intro acc h
    rw [List.foldl_cons]
    exact ih (selStep acc e) (keysNodup_selStep acc e h)

theorem champion_keys_nodup (d : List (String × String)) (hnd : keysNodup d) :
    ((d.foldl selStep []).map (fun e => e.2.1)).Nodup := by
  have hLnd : keysNodup (d.foldl selStep []) :=
    keysNodup_foldl_selStep d [] (by simp [keysNodup])
  have hLnodup : (d.foldl selStep []).Nodup := List.Nodup.of_map Prod.fst hLnd
  refine List.Nodup.map_on ?_ hLnodup
  intro x hx y hy hxy
  have hxl : assocLookup (d.foldl selStep []) x.1 = some x.2 :=
    assocLookup_eq_some_of_mem hLnd hx
  have hyl : assocLookup (d.foldl selStep []) y.1 = some y.2 :=
    assocLookup_eq_some_of_mem hLnd hy
  have hxd := champion_spec d x.1 x.2.1 x.2.2 hxl
  have hyd := champion_spec d y.1 y.2.1 y.2.2 hyl
  have heq : (x.2.1, x.1) = (y.2.1, y.1) :=
    List.inj_on_of_nodup_map hnd hxd.1 hyd.1 hxy
  have h1 : x.1 = y.1 := congrArg Prod.snd heq
  have h2 : x.2 = y.2 := by
    apply Option.some.inj
    rw [← hxl, h1]
    exact hyl
  exact Prod.ext_iff.2 ⟨h1, h2⟩

theorem foldl_build_insert (L : List (String × (String × Int))) :
    ∀ acc : List (String × String),
      (∀ e ∈ L, e.2.1 ∉ acc.map Prod.fst) →
      ((L.map fun e => e.2.1).Nodup) →
      L.foldl (fun acc2 e => pyDictInsert acc2 e.2.1 e.1) acc =
        acc ++ L.map (fun e => (e.2.1, e.1)) := by
  induction L with
  | nil => intro acc _ _; simp
  | cons e t ih =>
    intro acc hfr hnd
    rw [List.foldl_cons,
      pyDictInsert_of_not_mem acc e.2.1 e.1 (hfr e (List.mem_cons_self e t))]
    simp only [List.map_cons, List.nodup_cons] at hnd
    rw [ih (acc ++ [(e.2.1, e.1)]) ?_ hnd.2]
    · simp
    · intro x hx
      simp only [List.map_append, List.map_cons, List.map_nil, List.mem_append,
        List.mem_singleton, not_or]
      refine ⟨hfr x (List.mem_cons_of_mem e hx), ?_⟩
      intro h2
      exact hnd.1 (h2 ▸ List.mem_map.2 ⟨x, hx, rfl⟩)

end DetectionAgent

namespace DetectionAgent

/-- Message model `CapturedImage` from the camera agent. -/
structure CapturedImage where
  filename : String
  timestamp : Nat
  file_path : String
  capture_index : Nat
  session_id : String
deriving DecidableEq

/-- Message model `DetectionResult` sent to the AI evaluator. -/
structure DetectionResult where
  image_path : String
  timestamp : Nat
  session_id : String
  detected_objects : List (String × String)
  unique_classes : List String
  detection_count : Nat
  largest_instances : List (String × String)
deriving DecidableEq

/-- Module-level mutable state of the detection agent (`DetectionState`).
The loaded YOLO model is external; only its availability is observable. -/
structure DetState where
  modelLoaded : Bool
  images_processed : Nat
  current_session : String
  global_seen_objects : List String
  processed_files : List String
deriving DecidableEq

/-- Model of Python `list(set(xs))`.  CPython set iteration order is
hash-dependent; the model fixes first-occurrence order, which is one
admissible order and the only place the choice is observable is the
`unique_classes` payload. -/
def pySetList (l : List String) : List String :=
  l.foldl (fun acc x => if x ∈ acc then acc else acc ++ [x]) []

/-- Model of `detection_agent.process_captured_image`.  `fileExists` is the
`os.path.exists` oracle and `dets` is the detection dict assembled from the
YOLO predictions (coordinate key to class name, in box order); the result is
the successor state together with the `DetectionResult` sent to the AI
evaluator, `none` when the handler returns without sending. -/
def process_captured_image (st : DetState) (fileExists : Bool)
    (dets : List (String × String)) (msg : CapturedImage) :
    DetState × Option DetectionResult :=
  if ¬ st.modelLoaded then (st, none)
  else if ¬ fileExists then (st, none)
  else if msg.file_path ∈ st.processed_files then (st, none)
  else
    let st1 := { st with processed_files := st.processed_files ++ [msg.file_path] }
    let st2 :=
      if st1.current_session ≠ msg.session_id then
        { st1 with current_session := msg.session_id, global_seen_objects := [] }
      else st1
    if dets = [] then (st2, none)
    else
      let filtered := select_largest_instances dets
      let uniq := pySetList (filtered.map fun e => e.2)
      let st3 := { st2 with images_processed := st2.images_processed + 1 }
      (st3, some
        { image_path := msg.file_path
          timestamp := msg.timestamp
          session_id := msg.session_id
          detected_objects := dets
          unique_classes := uniq
          detection_count := filtered.length
          largest_instances := filtered })

end DetectionAgent

namespace AiEvaluator

/-- Message model `EvaluationResult` sent to the image processor. -/
structure EvaluationResult where
  image_path : String
  timestamp : Nat
  session_id : String
  original_objects : List String
  resellable_items : List String
  evaluation_confidence : String
  gemini_raw_response : String
  filtered_detections : List (String × String)
deriving DecidableEq

/-- Outcome of `eval(gemini_raw_result)` followed by the list check: the
call raises, returns a non-list value, or returns a list of strings.  The
generative model and Python `eval` are external; this carries exactly what
the handler observes. -/
inductive GeminiParse
  | parseError
  | nonList
  | strList (names : List String)
deriving DecidableEq

/-- The `resellable_names` value after the defensive parse: both failure
shapes collapse to the empty list. -/
def parsedNames : GeminiParse → List String
  | .parseError => []
  | .nonList => []
  | .strList names => names

/-- Model of `ai_evaluator_agent.evaluate_resellability`.  `modelAvailable`
is the Gemini-client guard, `fileExists` the `os.path.exists` oracle, `raw`
the raw Gemini reply and `parse` the outcome of parsing it; the result is
the `EvaluationResult` sent to the image processor, `none` when the handler
returns without sending.  (The handler also updates session/counter fields
that no claim observes; the send decides every claim.) -/
def evaluate_resellability (modelAvailable fileExists : Bool) (raw : String)
    (parse : GeminiParse) (msg : DetectionAgent.DetectionResult) :
    Option EvaluationResult :=
  if ¬ modelAvailable then none
  else if ¬ fileExists then none
  else
    let resellable_names := parsedNames parse
    let normalized := resellable_names.map pyLower
    let filtered := msg.largest_instances.filter fun e => decide (pyLower e.2 ∈ normalized)
    some
      { image_path := msg.image_path
        timestamp := msg.timestamp
        session_id := msg.session_id
        original_objects := msg.unique_classes
        resellable_items := resellable_names
        evaluation_confidence := "high"
        gemini_raw_response := raw
        filtered_detections := filtered }

end AiEvaluator

namespace ImageProcessor

/-- Model of `image_processor_agent.parse_coordinates`: same parser as the
detection agent, with the sentinel quadruple on failure. -/
def parse_coordinates (coords_str : String) : Int × Int × Int × Int :=
  match parseCoords4 coords_str with
  | some c => c
  | none => (0, 0, 0, 0)

/-- Model of `image_processor_agent.calculate_bbox_area` on a parsed
coordinate tuple. -/
def calculate_bbox_area : Int × Int × Int × Int → Int
  | (x_min, y_min, x_max, y_max) => (x_max - x_min) * (y_max - y_min)

/-- Model of Python `class_name.replace(" ", "_")`. -/
def spaceToUnderscore (s : String) : String :=
  ⟨s.data.map fun c => if c = ' ' then '_' else c⟩

/-- Per-object entry of the `processing_details` dict.  The constant float
border fraction stored alongside is not modelled (it parametrises the
external PIL crop only). -/
structure CropDetail where
  coordinates : Int × Int × Int × Int
  area : Int
  cropped_file : String
deriving DecidableEq

/-- Message model `ProcessingResult` sent to the report coordinator. -/
structure ProcessingResult where
  original_image_path : String
  timestamp : Nat
  session_id : String
  resellable_objects : List String
  cropped_files : List String
  processing_summary : List (String × CropDetail)
  total_objects_processed : Nat
deriving DecidableEq

/-- Module-level mutable state of the image processor agent. -/
structure ProcState where
  images_processed : Nat
  total_crops_created : Nat
  current_session : String
  session_crop_count : Nat
deriving DecidableEq

/-- Outcome of the image-processor handler: early return on a missing file,
early return when nothing is resellable, or a `ProcessingResult` sent to the
report coordinator. -/
inductive ProcOutcome
  | imageNotFound
  | noResellables
  | processed (r : ProcessingResult)
deriving DecidableEq

/-- Accumulator of the crop loop in `process_evaluated_objects`. -/
structure CropAcc where
  cropped_files : List String
  objects : List String
  details : List (String × CropDetail)
  crop_index : Nat
  session_crops : Nat
deriving DecidableEq

/-- One iteration of the crop loop: skip entries with the sentinel
coordinates, then attempt the crop.  `cropOk i` is the oracle for whether
the external PIL crop-and-save of the `i`-th attempted crop succeeds; on
success the saved file name is recorded exactly as the code derives it. -/
def cropStep (ts : Nat) (cropOk : Nat → Bool) (acc : CropAcc)
    (e : String × String) : CropAcc :=
  let coords := parse_coordinates e.1
  if coords = (0, 0, 0, 0) then acc
  else
    let idx := acc.crop_index + 1
    let acc2 := { acc with crop_index := idx, session_crops := acc.session_crops + 1 }
    if cropOk idx then
      let fname :=
        toString ts ++ "_" ++ toString idx ++ "_" ++ spaceToUnderscore e.2 ++ ".jpg"
      { acc2 with
        cropped_files := acc2.cropped_files ++ [fname]
        objects := acc2.objects ++ [e.2]
        details :=
          pyDictInsert acc2.details e.2
            { coordinates := coords
              area := calculate_bbox_area coords
              cropped_file := fname } }
    else acc2

/-- Model of `image_processor_agent.process_evaluated_objects`. -/
def process_evaluated_objects (st : ProcState) (fileExists : Bool)
    (cropOk : Nat → Bool) (msg : AiEvaluator.EvaluationResult) :
    ProcState × ProcOutcome :=
  if ¬ fileExists then (st, .imageNotFound)
  else
    let st1 :=
      if st.current_session ≠ msg.session_id then
        { st with current_session := msg.session_id, session_crop_count := 0 }
      else st
    if msg.filtered_detections = [] then (st1, .noResellables)
    else
      let acc := msg.filtered_detections.foldl (cropStep msg.timestamp cropOk)
        { cropped_files := [], objects := [], details := [], crop_index := 0,
          session_crops := 0 }
      let st2 := { st1 with
        session_crop_count := st1.session_crop_count + acc.session_crops
        images_processed := st1.images_processed + 1
        total_crops_created := st1.total_crops_created + acc.cropped_files.length }
      (st2, .processed
        { original_image_path := msg.image_path
          timestamp := msg.timestamp
          session_id := msg.session_id
          resellable_objects := acc.objects
          cropped_files := acc.cropped_files
          processing_summary := acc.details
          total_objects_processed := acc.objects.length })

end ImageProcessor

namespace ReportCoordinator

/-- Per-session entry of `coordinator_state.sessions`.  The Python value is
a plain dict whose fields are listed in `start_system_coordination`; the
`unique_objects` field is a Python set, modelled as a dedup-ordered list. -/
structure CoordSession where
  start_time : Nat
  duration_seconds : Nat
  max_captures : Nat
  cooldown_tenths : Nat
  images_processed : Nat
  total_objects_found : Nat
  unique_objects : List String
  cropped_files : List String
  status : String
  end_time : Option Nat
deriving DecidableEq

/-- Module-level mutable state of the report coordinator agent. -/
structure CoordState where
  sessions : List (String × CoordSession)
  current_session : String
  total_sessions : Nat
  global_seen_objects : List String
  processing_results : List ImageProcessor.ProcessingResult
deriving DecidableEq

/-- Final `ReportData` composed by `finalize_session`.  The text report
itself is written to disk (external I/O) and only its path is observable
here; the untyped `session_summary` payload is the session entry itself. -/
structure ReportData where
  session_id : String
  total_images_processed : Nat
  total_unique_objects : Nat
  total_cropped_files : Nat
  final_report_path : String
  session_summary : CoordSession
deriving DecidableEq

/-- Model of `report_coordinator_agent.coordinate_processing_result`: drop
the message when it does not belong to the single current session or to a
known session, otherwise merge it into the session aggregates. -/
def coordinate_processing_result (st : CoordState)
    (msg : ImageProcessor.ProcessingResult) : CoordState :=
  if st.current_session ≠ msg.session_id then st
  else
    match assocLookup st.sessions msg.session_id with
    | none => st
    | some sd =>
      let st1 := { st with processing_results := st.processing_results ++ [msg] }
      let sd1 := { sd with
        images_processed := sd.images_processed + 1
        total_objects_found := sd.total_objects_found + msg.total_objects_processed
        cropped_files := sd.cropped_files ++ msg.cropped_files }
      let st2 := { st1 with
        global_seen_objects :=
          msg.resellable_objects.foldl (fun s o => setAdd s (pyLower o))
            st1.global_seen_objects }
      let sd2 := { sd1 with
        unique_objects :=
          msg.resellable_objects.foldl (fun s o => setAdd s (pyLower o))
            sd1.unique_objects }
      { st2 with sessions := pyDictInsert st2.sessions msg.session_id sd2 }

/-- Model of `report_coordinator_agent.finalize_session`: mark the session
completed, stamp the end time, and compose the `ReportData`.  The report
file write is external I/O; its path is the deterministic string the code
derives (the empty-path IOError fallback is not modelled). -/
def finalize_session (now : Nat) (st : CoordState) (sid : String) :
    CoordState × Option ReportData :=
  match assocLookup st.sessions sid with
  | none => (st, none)
  | some sd =>
    let sd2 := { sd with status := "completed", end_time := some now }
    let st2 := { st with sessions := pyDictInsert st.sessions sid sd2 }
    (st2, some
      { session_id := sid
        total_images_processed := sd2.images_processed
        total_unique_objects := sd2.unique_objects.length
        total_cropped_files := sd2.cropped_files.length
        final_report_path := sid ++ "_analysis_report_resellables.txt"
        session_summary := sd2 })

/-- One step of the `session_timeout_check` sweep at a given session id:
finalize the session when it is active and its age exceeds the configured
duration plus the 30-second buffer. -/
def sweepStep (now : Nat) (acc : CoordState) (sid : String) : CoordState :=
  match assocLookup acc.sessions sid with
  | none => acc
  | some sd =>
    if sd.status = "active" ∧ now - sd.start_time > sd.duration_seconds + 30 then
      (finalize_session now acc sid).1
    else acc

/-- Model of `report_coordinator_agent.session_timeout_check`: sweep every
tracked session id.  The Python loop iterates over the items of the
sessions dict; finalization mutates only session values, never the key set,
so iterating the key list and re-reading each entry is the same
computation. -/
def session_timeout_check (now : Nat) (st : CoordState) : CoordState :=
  (st.sessions.map Prod.fst).foldl (sweepStep now) st

end ReportCoordinator

namespace PipelineCoordinator

/-- Message model `ImageRecognitionResult` (api_message_models).  The
untyped `pricing`/`rating` dict payloads are carried opaquely by the
coordinator and are not modelled. -/
structure ImageRecognitionResult where
  session_id : String
  request_id : String
  success : Bool
  product_name : Option String
  source_url : Option String
  host : Option String
  error_message : Option String
deriving DecidableEq

/-- Message model `PriceComparison`.  Python float prices are carried
opaquely (never computed on) and are modelled as integers. -/
structure PriceComparison where
  platform : String
  title : String
  price : Int
  condition : String
  location : Option String
  url : Option String
deriving DecidableEq

/-- Message model `PriceResearchResult`.  The optional summary dict payload
is carried opaquely and is not modelled. -/
structure PriceResearchResult where
  session_id : String
  request_id : String
  success : Bool
  query : Option String
  comps : List PriceComparison
  currency : String
  total_found : Nat
  error_message : Option String
deriving DecidableEq

/-- Message model `ListingResult`. -/
structure ListingResult where
  platform : String
  success : Bool
  status : Option String
  listing_url : Option String
  listing_id : Option String
  message : Option String
  error_message : Option String
deriving DecidableEq

/-- Message model `ListingCreationResult`.  The untyped `listing_data` and
`summary` payloads are carried opaquely and are not modelled. -/
structure ListingCreationResult where
  session_id : String
  request_id : String
  success : Bool
  listings : List ListingResult
  error_message : Option String
deriving DecidableEq

/-- Message model `CompletePipelineRequest`. -/
structure CompletePipelineRequest where
  image_base64 : String
  target_platforms : List String
  condition_filter : String
  product_condition : String
  session_id : String
deriving DecidableEq

/-- Message model `CompletePipelineResult`. -/
structure CompletePipelineResult where
  session_id : String
  success : Bool
  steps_completed : List String
  image_recognition : Option ImageRecognitionResult
  price_research : Option PriceResearchResult
  listing_creation : Option ListingCreationResult
  error_message : Option String
  total_execution_time_ms : Option Int
deriving DecidableEq

/-- Per-session tracking object `PipelineSession`. -/
structure PipelineSession where
  request : CompletePipelineRequest
  start_time : Nat
  steps_completed : List String
  image_recognition_result : Option ImageRecognitionResult
  price_research_result : Option PriceResearchResult
  listing_creation_result : Option ListingCreationResult
  error_message : Option String
  completed : Bool
deriving DecidableEq

/-- Module-level mutable state `PipelineState` of the pipeline
coordinator. -/
structure PipState where
  active_sessions : List (String × PipelineSession)
  completed_sessions : Nat
  failed_sessions : Nat
deriving DecidableEq

/-- Model of `pipeline_coordinator_agent.finalize_pipeline_session`.  The
Python function receives the session object the calling handler looked up
in `active_sessions`; here the lookup is by id and the updated session is
written back to the store.  The composed `CompletePipelineResult` is
returned (the code builds and logs it without sending it anywhere);
`none` means the early idempotence return fired. -/
def finalize_pipeline_session (now : Nat) (st : PipState) (sid : String)
    (success : Bool) (error_message : Option String) :
    PipState × Option CompletePipelineResult :=
  match assocLookup st.active_sessions sid with
  | none => (st, none)
  | some session =>
    if session.completed then (st, none)
    else
      let result : CompletePipelineResult :=
        { session_id := session.request.session_id
          success := success
          steps_completed := session.steps_completed
          image_recognition := session.image_recognition_result
          price_research := session.price_research_result
          listing_creation := session.listing_creation_result
          error_message := error_message
          total_execution_time_ms := some (((now : Int) - (session.start_time : Int)) * 1000) }
      let session2 := { session with completed := true }
      let st2 := { st with
        active_sessions := pyDictInsert st.active_sessions sid session2
        completed_sessions :=
          if success then st.completed_sessions + 1 else st.completed_sessions
        failed_sessions :=
          if success then st.failed_sessions else st.failed_sessions + 1 }
      (st2, some result)

/-- Model of `pipeline_coordinator_agent.handle_image_recognition_result`:
drop results for unknown sessions; otherwise store the result and append to
the step list, then finalize on failure or on a missing product name. -/
def handle_image_recognition_result (now : Nat) (st : PipState)
    (msg : ImageRecognitionResult) : PipState × Option CompletePipelineResult :=
  match assocLookup st.active_sessions msg.session_id with
  | none => (st, none)
  | some session =>
    let session2 := { session with
      image_recognition_result := some msg
      steps_completed := session.steps_completed ++ ["image_recognition_completed"] }
    let st2 := { st with
      active_sessions := pyDictInsert st.active_sessions msg.session_id session2 }
    if ¬ msg.success then
      finalize_pipeline_session now st2 msg.session_id false
        (some ("Image recognition failed: " ++ pyOptStr msg.error_message))
    else if pyStrFalsy msg.product_name then
      finalize_pipeline_session now st2 msg.session_id false
        (some "No product identified in image")
    else (st2, none)

/-- Model of `pipeline_coordinator_agent.handle_price_research_result`. -/
def handle_price_research_result (now : Nat) (st : PipState)
    (msg : PriceResearchResult) : PipState × Option CompletePipelineResult :=
  match assocLookup st.active_sessions msg.session_id with
  | none => (st, none)
  | some session =>
    let session2 := { session with
      price_research_result := some msg
      steps_completed := session.steps_completed ++ ["price_research_completed"] }
    let st2 := { st with
      active_sessions := pyDictInsert st.active_sessions msg.session_id session2 }
    if ¬ msg.success then
      finalize_pipeline_session now st2 msg.session_id false
        (some ("Price research failed: " ++ pyOptStr msg.error_message))
    else (st2, none)

/-- Model of `pipeline_coordinator_agent.handle_listing_creation_result`. -/
def handle_listing_creation_result (now : Nat) (st : PipState)
    (msg : ListingCreationResult) : PipState × Option CompletePipelineResult :=
  match assocLookup st.active_sessions msg.session_id with
  | none => (st, none)
  | some session =>
    let session2 := { session with
      listing_creation_result := some msg
      steps_completed := session.steps_completed ++ ["listing_creation_completed"] }
    let st2 := { st with
      active_sessions := pyDictInsert st.active_sessions msg.session_id session2 }
    if ¬ msg.success then
      finalize_pipeline_session now st2 msg.session_id false
        (some ("Listing creation failed: " ++ pyOptStr msg.error_message))
    else
      finalize_pipeline_session now st2 msg.session_id true none

/-- The three stage-result message kinds the coordinator listens for. -/
inductive StageResultMsg
  | recognition (msg : ImageRecognitionResult)
  | price (msg : PriceResearchResult)
  | listing (msg : ListingCreationResult)
deriving DecidableEq

/-- Session id carried by a stage-result message. -/
def stageSessionId : StageResultMsg → String
  | .recognition msg => msg.session_id
  | .price msg => msg.session_id
  | .listing msg => msg.session_id

/-- Dispatch of a stage-result message to its handler. -/
def handle_stage_result (now : Nat) (st : PipState) :
    StageResultMsg → PipState × Option CompletePipelineResult
  | .recognition msg => handle_image_recognition_result now st msg
  | .price msg => handle_price_research_result now st msg
  | .listing msg => handle_listing_creation_result now st msg

/-- Removal condition of `cleanup_old_sessions`: completed sessions whose
age from `start_time` exceeds 300 seconds, and uncompleted sessions whose
age exceeds 900 seconds.  Ages are float differences in Python; both
comparisons behave identically on the natural-number model. -/
def cleanupRemove (now : Nat) (e : String × PipelineSession) : Bool :=
  (e.2.completed && decide (now - e.2.start_time > 300)) ||
    (!e.2.completed && decide (now - e.2.start_time > 900))

/-- Model of `pipeline_coordinator_agent.cleanup_old_sessions`: pop every
session matching the removal condition, and count every removed uncompleted
(stalled) session into `failed_sessions`. -/
def cleanup_old_sessions (now : Nat) (st : PipState) : PipState :=
  { st with
    active_sessions := st.active_sessions.filter fun e => !cleanupRemove now e
    failed_sessions := st.failed_sessions +
      (st.active_sessions.filter fun e =>
        !e.2.completed && decide (now - e.2.start_time > 900)).length }

end PipelineCoordinator

namespace ImageRecognitionAgent

/-- Message model `ImageRecognitionRequest`. -/
structure ImageRecognitionRequest where
  image_base64 : String
  session_id : String
  request_id : String
deriving DecidableEq

/-- Message model `PriceResearchRequest`. -/
structure PriceResearchRequest where
  product_name : String
  platforms : List String
  condition_filter : String
  session_id : String
  request_id : String
deriving DecidableEq

/-- Product payload of a successful recognition API response. -/
structure ApiData where
  product_name : Option String
  source_url : Option String
  host : Option String
deriving DecidableEq

/-- Observable outcome of the `requests.post` call to the recognition API:
a 200 response with its parsed `ok`/`message`/`data` fields, a non-200
status, a timeout, or another raised exception. -/
inductive ApiResponse
  | httpOk (ok : Bool) (message : Option String) (data : ApiData)
  | httpError (status : Nat)
  | timeout
  | exn (msg : String)
deriving DecidableEq

/-- A message sent by the recognition handler: the result back to the
sender, or the follow-up request to the price scraper. -/
inductive RecEmission
  | toSender (r : PipelineCoordinator.ImageRecognitionResult)
  | toPriceScraper (r : PriceResearchRequest)
deriving DecidableEq

/-- Error result sent when the recognition API health check fails. -/
def apiUnavailableResult (msg : ImageRecognitionRequest) :
    PipelineCoordinator.ImageRecognitionResult :=
  { session_id := msg.session_id
    request_id := msg.request_id
    success := false
    product_name := none
    source_url := none
    host := none
    error_message := some "Image Recognition API is not available" }

/-- Error result of the remaining failure branches. -/
def recErrorResult (msg : ImageRecognitionRequest) (emsg : String) :
    PipelineCoordinator.ImageRecognitionResult :=
  { session_id := msg.session_id
    request_id := msg.request_id
    success := false
    product_name := none
    source_url := none
    host := none
    error_message := some emsg }

/-- Model of `image_recognition_agent.process_image_recognition`.
`cachedHealthy` is the stored `api_healthy` flag at the moment the handler
checks it (after the five-minute staleness refresh) and `recheckHealthy`
the outcome of the extra health check performed when the cached flag is
false; the handler proceeds to the API call exactly when one of the two
holds.  `resp` is the observable outcome of the API call.  The returned
list is the ordered sequence of messages the handler sends. -/
def process_image_recognition (cachedHealthy recheckHealthy : Bool)
    (resp : ApiResponse) (msg : ImageRecognitionRequest) : List RecEmission :=
  if ¬ cachedHealthy ∧ ¬ recheckHealthy then [.toSender (apiUnavailableResult msg)]
  else
    match resp with
    | .httpOk true _ data =>
      [.toSender
        { session_id := msg.session_id
          request_id := msg.request_id
          success := true
          product_name := data.product_name
          source_url := data.source_url
          host := data.host
          error_message := none }] ++
      (match data.product_name with
       | some pn =>
         if pn = "" then []
         else
           [.toPriceScraper
             { product_name := pn
               platforms := ["facebook", "ebay"]
               condition_filter := "all"
               session_id := msg.session_id
               request_id := msg.request_id }]
       | none => [])
    | .httpOk false message _ =>
      [.toSender (recErrorResult msg
        ("Recognition failed: " ++
          (match message with
           | some m => m
           | none => "Unknown API error")))]
    | .httpError status =>
      [.toSender (recErrorResult msg ("API HTTP error: " ++ toString status))]
    | .timeout =>
      [.toSender (recErrorResult msg "Recognition request timed out")]
    | .exn m =>
      [.toSender (recErrorResult msg ("Processing error: " ++ m))]

end ImageRecognitionAgent

theorem assocLookup_eq_none {α β : Type} [DecidableEq α]
    (d : List (α × β)) (k : α) (h : k ∉ d.map Prod.fst) :
    assocLookup d k = none := by
  induction d with
  | nil => rfl
  | cons e rest ih =>
    simp only [List.map_cons, List.mem_cons, not_or] at h
    have hne : ¬ e.1 = k := fun h2 => h.1 h2.symm
    simp only [assocLookup, if_neg hne]
    exact ih h.2

theorem assocLookup_filter {β : Type} [DecidableEq β]
    (d : List (String × β)) (p : String × β → Bool) (k : String) (v : β)
    (hnd : keysNodup d) (hm : assocLookup d k = some v) :
    assocLookup (d.filter p) k = if p (k, v) then some v else none := by
  induction d with
  | nil => simp [assocLookup] at hm
  | cons e rest ih =>
    unfold keysNodup at hnd
    simp only [List.map_cons, List.nodup_cons] at hnd
    by_cases he : e.1 = k
    · have hv : e.2 = v := by
        simpa [assocLookup, he] using hm
      have he2 : e = (k, v) := Prod.ext_iff.2 ⟨he, hv⟩
      have hknot : k ∉ rest.map Prod.fst := he ▸ hnd.1
      have hknotf : k ∉ (rest.filter p).map Prod.fst := by
        intro h2
        rcases List.mem_map.1 h2 with ⟨x, hx, hxk⟩
        exact hknot (List.mem_map.2 ⟨x, (List.mem_filter.1 hx).1, hxk⟩)
      cases hp : p e with
      | true =>
        rw [List.filter_cons, if_pos (by rw [hp])]
        rw [he2] at hp
        simp [assocLookup, he, hp, hv]
      | false =>
        rw [List.filter_cons, if_neg (by rw [hp]; simp)]
        rw [he2] at hp
        rw [if_neg (by simp [hp])]
        exact assocLookup_eq_none _ k hknotf
    · have hm2 : assocLookup rest k = some v := by
        simpa [assocLookup, he] using hm
      have ih2 := ih hnd.2 hm2
      cases hp : p e with
      | true =>
        rw [List.filter_cons, if_pos (by rw [hp])]
        simpa [assocLookup, he] using ih2
      | false =>
        rw [List.filter_cons, if_neg (by rw [hp]; simp)]
        exact ih2

namespace ReportCoordinator

theorem finalize_session_found (now : Nat) (st : CoordState) (sid : String)
    (sd : CoordSession) (h : assocLookup st.sessions sid = some sd) :
    (finalize_session now st sid).1 =
      { st with sessions := pyDictInsert st.sessions sid { sd with status := "completed", end_time := some now } } := by
  unfold finalize_session
  split
  · rename_i heq
    rw [h] at heq
    exact absurd heq (by simp)
  · rename_i sd2 heq
    rw [h] at heq
    injection heq with h2
    subst h2
    rfl

theorem sweepStep_found (now : Nat) (acc : CoordState) (sid : String)
    (sd : CoordSession) (h : assocLookup acc.sessions sid = some sd) :
    sweepStep now acc sid =
      if sd.status = "active" ∧ now - sd.start_time > sd.duration_seconds + 30
      then (finalize_session now acc sid).1 else acc := by
  unfold sweepStep
  split
  · rename_i heq
    rw [h] at heq
    exact absurd heq (by simp)
  · rename_i sd2 heq
    rw [h] at heq
    injection heq with h2
    subst h2
    rfl

theorem sweepStep_preserves_ne (now : Nat) (acc : CoordState)
    (sid sid2 : String) (h : sid ≠ sid2) :
    assocLookup (sweepStep now acc sid2).sessions sid =
      assocLookup acc.sessions sid := by
  cases hl : assocLookup acc.sessions sid2 with
  | none =>
    unfold sweepStep
    rw [hl]
  | some sd =>
    rw [sweepStep_found now acc sid2 sd hl]
    split_ifs with hc
    · rw [finalize_session_found now acc sid2 sd hl]
      exact assocLookup_pyDictInsert_ne acc.sessions sid2 sid _ h
    · rfl

theorem sweep_fold_completes (now : Nat) :
    ∀ (ks : List String) (acc : CoordState) (sid : String) (sd : CoordSession),
      assocLookup acc.sessions sid = some sd →
      ((sid ∈ ks ∧ sd.status = "active" ∧
          now - sd.start_time > sd.duration_seconds + 30) ∨
        sd.status = "completed") →
      ∃ sd2, assocLookup (ks.foldl (sweepStep now) acc).sessions sid = some sd2 ∧
        sd2.status = "completed" := by
  intro ks
  induction ks with
  | nil =>
    intro acc sid sd h hd
    rcases hd with ⟨hmem, _⟩ | hc
    · simp at hmem
    · exact ⟨sd, h, hc⟩
  | cons k ks2 ih =>
    intro acc sid sd h hd
    rw [List.foldl_cons]
    by_cases hk : k = sid
    · subst hk
      rcases hd with ⟨_, hact, hstale⟩ | hc
      · have hfin : assocLookup (sweepStep now acc k).sessions k =
            some { sd with status := "completed", end_time := some now } := by
          rw [sweepStep_found now acc k sd h, if_pos ⟨hact, hstale⟩,
            finalize_session_found now acc k sd h]
          exact assocLookup_pyDictInsert_self acc.sessions k _
        exact ih (sweepStep now acc k) k _ hfin (Or.inr rfl)
      · have hstep : sweepStep now acc k = acc := by
          rw [sweepStep_found now acc k sd h, if_neg]
          intro hcon
          rw [hc] at hcon
          exact absurd hcon.1 (by decide)
        rw [hstep]
        exact ih acc k sd h (Or.inr hc)
    · have hpre : assocLookup (sweepStep now acc k).sessions sid = some sd := by
        rw [sweepStep_preserves_ne now acc sid k fun h2 => hk h2.symm]
        exact h
      refine ih (sweepStep now acc k) sid sd hpre ?_
      rcases hd with ⟨hmem, rest⟩ | hc
      · rcases List.mem_cons.1 hmem with h2 | h2
        · exact absurd h2.symm hk
        · exact Or.inl ⟨h2, rest.1, rest.2⟩
      · exact Or.inr hc

theorem session_timeout_check_completes (now : Nat) (st : CoordState)
    (sid : String) (sd : CoordSession)
    (hm : assocLookup st.sessions sid = some sd) (ha : sd.status = "active")
    (hst : now - sd.start_time > sd.duration_seconds + 30) :
    Option.map CoordSession.status
        (assocLookup (session_timeout_check now st).sessions sid) =
      some "completed" := by
  unfold session_timeout_check
  obtain ⟨sd2, h2, hs2⟩ :=
    sweep_fold_completes now (st.sessions.map Prod.fst) st sid sd hm
      (Or.inl ⟨List.mem_map.2 ⟨(sid, sd), mem_of_assocLookup_eq_some hm, rfl⟩,
        ha, hst⟩)
  rw [h2]
  simp [hs2]

end ReportCoordinator

namespace PipelineCoordinator

theorem finalize_noop (now : Nat) (st : PipState) (sid : String)
    (s : PipelineSession) (b : Bool) (e : Option String)
    (hm : assocLookup st.active_sessions sid = some s)
    (hc : s.completed = true) :
    finalize_pipeline_session now st sid b e = (st, none) := by
  unfold finalize_pipeline_session
  split
  · rfl
  · rename_i session heq
    rw [hm] at heq
    injection heq with h2
    subst h2
    rw [if_pos hc]

theorem finalize_pipeline_session_fires (now : Nat) (st : PipState)
    (sid : String) (s : PipelineSession) (success : Bool) (emsg : Option String)
    (hm : assocLookup st.active_sessions sid = some s)
    (hc : s.completed = false) :
    finalize_pipeline_session now st sid success emsg =
      ({ st with
          active_sessions :=
            pyDictInsert st.active_sessions sid { s with completed := true }
          completed_sessions :=
            if success then st.completed_sessions + 1 else st.completed_sessions
          failed_sessions :=
            if success then st.failed_sessions else st.failed_sessions + 1 },
        some
          { session_id := s.request.session_id
            success := success
            steps_completed := s.steps_completed
            image_recognition := s.image_recognition_result
            price_research := s.price_research_result
            listing_creation := s.listing_creation_result
            error_message := emsg
            total_execution_time_ms :=
              some (((now : Int) - (s.start_time : Int)) * 1000) }) := by
  unfold finalize_pipeline_session
  split
  · rename_i heq
    rw [hm] at heq
    exact absurd heq (by simp)
  · rename_i session heq
    rw [hm] at heq
    injection heq with h2
    subst h2
    rw [if_neg (by simp [hc])]

end PipelineCoordinator

section Claims

open DetectionAgent in
/-- C1: for every detection map (bounding-box key to class label, a Python
dict and hence with pairwise distinct keys), the largest-instance filter
retains, for each class label, exactly the entry whose parsed box area
`(xmax - xmin) * (ymax - ymin)` is maximal among entries with that label,
ties keeping the entry encountered first in input iteration order;
unparseable coordinate keys count as area 0 (which is built into
`calculate_bbox_area`).  Formally: an entry survives the filter exactly when
the first-maximum search over the entries of its class finds it. -/
theorem claim1_largest_instance_filter (d : List (String × String))
    (hnd : keysNodup d) (k c : String) :
    (k, c) ∈ select_largest_instances d ↔
      (classEntries d c).find? (maxPred (classEntries d c)) = some (k, c) := by
  have hwk := champion_keys_nodup d hnd
  have hbuild : select_largest_instances d =
      (d.foldl selStep []).map (fun e => (e.2.1, e.1)) := by
    unfold select_largest_instances
    rw [foldl_build_insert (d.foldl selStep []) [] (by intro e he; simp) hwk]
    simp
  have hLnd : keysNodup (d.foldl selStep []) :=
    keysNodup_foldl_selStep d [] (by simp [keysNodup])
  rw [hbuild]
  constructor
  · intro hmem
    rcases List.mem_map.1 hmem with ⟨x, hx, hxe⟩
    have hk : x.2.1 = k := congrArg Prod.fst hxe
    have hc : x.1 = c := congrArg Prod.snd hxe
    have hxl : assocLookup (d.foldl selStep []) c = some x.2 := by
      rw [← hc]
      exact assocLookup_eq_some_of_mem hLnd hx
    rcases assocLookup_foldl_selStep_none d [] c rfl with ⟨hE, hn⟩ | ⟨e, rest, hE, hs⟩
    · rw [hn] at hxl
      exact absurd hxl (by simp)
    · have hx2 : x.2 = runBest (e.1, calculate_bbox_area e.1) rest := by
        apply Option.some.inj
        rw [← hxl, hs]
      obtain ⟨w, hw, hwrun⟩ := find?_first_max rest e
      rw [← hE] at hw
      have hxw : x.2 = (w.1, calculate_bbox_area w.1) := by rw [hx2, hwrun]
      have hwm := mem_classEntries (List.mem_of_find?_eq_some hw)
      have hww : w = (k, c) := by
        refine Prod.ext_iff.2 ⟨?_, hwm.2⟩
        rw [← hk, hxw]
      rw [hw, hww]
  · intro hfind
    cases hE : classEntries d c with
    | nil =>
      rw [hE] at hfind
      simp at hfind
    | cons e rest =>
      obtain ⟨w, hw, hwrun⟩ := find?_first_max rest e
      rw [← hE] at hw
      have hww : w = (k, c) := by
        apply Option.some.inj
        rw [← hw, hfind]
      rcases assocLookup_foldl_selStep_none d [] c rfl with ⟨hE2, _⟩ | ⟨e2, rest2, hE2, hs⟩
      · rw [hE] at hE2
        simp at hE2
      · rw [hE] at hE2
        injection hE2 with he2 hrest2
        subst he2
        subst hrest2
        rw [hwrun, hww] at hs
        exact List.mem_map.2 ⟨(c, ((k, c).1, calculate_bbox_area (k, c).1)),
          mem_of_assocLookup_eq_some hs, rfl⟩

/-- Example detection dict of the specification end-to-end scenario. -/
def exDetections1 : List (String × String) :=
  [("(0, 0, 100, 100)", "laptop"), ("(0, 0, 50, 50)", "laptop"),
    ("(10, 10, 30, 30)", "bottle")]

open DetectionAgent in
/-- Witness for C1: on the specification scenario the key invariant holds
and the filter keeps exactly the 100x100 laptop box. -/
theorem claim1_witness :
    keysNodup exDetections1 ∧
      (("(0, 0, 100, 100)", "laptop") ∈ select_largest_instances exDetections1 ↔
        (classEntries exDetections1 "laptop").find?
            (maxPred (classEntries exDetections1 "laptop")) =
          some ("(0, 0, 100, 100)", "laptop")) :=
  ⟨by decide,
    claim1_largest_instance_filter exDetections1 (by decide)
      "(0, 0, 100, 100)" "laptop"⟩

open AiEvaluator in
/-- C7: the resellability intersection is case-insensitive: given a parsed
classifier output list, a detection of the largest-instance map survives the
filter exactly when it is in the map and some classifier output string
equals its class label after lower-casing both sides. -/
theorem claim7_case_insensitive_intersection
    (msg : DetectionAgent.DetectionResult) (names : List String)
    (raw k c : String) (r : EvaluationResult)
    (hr : evaluate_resellability true true raw (GeminiParse.strList names) msg =
      some r) :
    ((k, c) ∈ r.filtered_detections ↔
      (k, c) ∈ msg.largest_instances ∧ ∃ s ∈ names, pyLower s = pyLower c) := by
  have hR : evaluate_resellability true true raw (GeminiParse.strList names) msg =
      some
        { image_path := msg.image_path
          timestamp := msg.timestamp
          session_id := msg.session_id
          original_objects := msg.unique_classes
          resellable_items := names
          evaluation_confidence := "high"
          gemini_raw_response := raw
          filtered_detections := msg.largest_instances.filter
            fun e => decide (pyLower e.2 ∈ names.map pyLower) } := rfl
  rw [hR] at hr
  injection hr with hr2
  subst hr2
  simp [List.mem_filter, List.mem_map]

/-- Example detection result for the C7 witness. -/
def exMsg7 : DetectionAgent.DetectionResult :=
  { image_path := "img7", timestamp := 7, session_id := "s7",
    detected_objects := [("(0, 0, 100, 100)", "Laptop")],
    unique_classes := ["Laptop"], detection_count := 1,
    largest_instances := [("(0, 0, 100, 100)", "Laptop")] }

/-- Evaluation result the evaluator produces on `exMsg7` with classifier
output `["laptop"]`. -/
def exEval7 : AiEvaluator.EvaluationResult :=
  { image_path := "img7", timestamp := 7, session_id := "s7",
    original_objects := ["Laptop"], resellable_items := ["laptop"],
    evaluation_confidence := "high", gemini_raw_response := "raw7",
    filtered_detections := [("(0, 0, 100, 100)", "Laptop")] }

open AiEvaluator in
/-- Witness for C7: class "Laptop" matches classifier output "laptop". -/
theorem claim7_witness :
    (("(0, 0, 100, 100)", "Laptop") ∈ exEval7.filtered_detections ↔
      ("(0, 0, 100, 100)", "Laptop") ∈ exMsg7.largest_instances ∧
        ∃ s ∈ ["laptop"], pyLower s = pyLower "Laptop") :=
  claim7_case_insensitive_intersection exMsg7 ["laptop"] "raw7"
    "(0, 0, 100, 100)" "Laptop" exEval7 (by decide)

open AiEvaluator in
/-- C8: when parsing the raw classifier output fails or yields a non-list
value, the resellable set is empty and the evaluation still produces (and
sends) its downstream result with empty resellable items and empty filtered
detections, instead of failing the session. -/
theorem claim8_malformed_parse_empty (raw : String) (p : GeminiParse)
    (msg : DetectionAgent.DetectionResult)
    (hp : p = GeminiParse.parseError ∨ p = GeminiParse.nonList) :
    (evaluate_resellability true true raw p msg).map
        (fun r => (r.resellable_items, r.filtered_detections)) =
      some ([], []) := by
  have hn : parsedNames p = [] := by
    rcases hp with h | h <;> subst h <;> rfl
  have hev : evaluate_resellability true true raw p msg =
      some
        { image_path := msg.image_path
          timestamp := msg.timestamp
          session_id := msg.session_id
          original_objects := msg.unique_classes
          resellable_items := parsedNames p
          evaluation_confidence := "high"
          gemini_raw_response := raw
          filtered_detections := msg.largest_instances.filter
            fun e => decide (pyLower e.2 ∈ (parsedNames p).map pyLower) } := rfl
  rw [hev]
  simp [hn]

/-- Example detection result for the C8 witness. -/
def exMsg8 : DetectionAgent.DetectionResult :=
  { image_path := "img8", timestamp := 8, session_id := "s8",
    detected_objects := [("(0, 0, 10, 10)", "laptop")],
    unique_classes := ["laptop"], detection_count := 1,
    largest_instances := [("(0, 0, 10, 10)", "laptop")] }

open AiEvaluator in
/-- Witness for C8 at a concrete unparseable reply. -/
theorem claim8_witness :
    (evaluate_resellability true true "notalist" GeminiParse.parseError
        exMsg8).map (fun r => (r.resellable_items, r.filtered_detections)) =
      some ([], []) :=
  claim8_malformed_parse_empty "notalist" GeminiParse.parseError exMsg8
    (Or.inl rfl)

open AiEvaluator ImageProcessor ReportCoordinator in
/-- C2: a session whose evaluation stage yields an empty resellable
intersection is not failed: the evaluator still emits its result with an
empty filtered set, the crop stage handles that result with outcome
`noResellables` (zero crops created, not an error outcome), and the report
coordinator session finishes in the terminal "completed" status once the
timeout sweep finalizes it (the only terminal status this pipeline has; no
failure status exists on this path). -/
theorem claim2_zero_resellables (raw : String) (p : GeminiParse)
    (msg : DetectionAgent.DetectionResult)
    (hempty : ∀ e ∈ msg.largest_instances,
      pyLower e.2 ∉ (parsedNames p).map pyLower) :
    (evaluate_resellability true true raw p msg).map
        EvaluationResult.filtered_detections = some [] ∧
    (∀ r, evaluate_resellability true true raw p msg = some r →
      ∀ (pst : ProcState) (cropOk : Nat → Bool),
        (process_evaluated_objects pst true cropOk r).2 =
          ProcOutcome.noResellables ∧
        (process_evaluated_objects pst true cropOk r).1.total_crops_created =
          pst.total_crops_created) ∧
    (∀ (now : Nat) (cst : CoordState) (sid : String) (sd : CoordSession),
      assocLookup cst.sessions sid = some sd → sd.status = "active" →
      now - sd.start_time > sd.duration_seconds + 30 →
      Option.map CoordSession.status
          (assocLookup (session_timeout_check now cst).sessions sid) =
        some "completed") := by
  have hfil : (msg.largest_instances.filter
      fun e => decide (pyLower e.2 ∈ (parsedNames p).map pyLower)) = [] := by
    rw [List.filter_eq_nil_iff]
    intro e he
    simpa using hempty e he
  have hev : evaluate_resellability true true raw p msg =
      some
        { image_path := msg.image_path
          timestamp := msg.timestamp
          session_id := msg.session_id
          original_objects := msg.unique_classes
          resellable_items := parsedNames p
          evaluation_confidence := "high"
          gemini_raw_response := raw
          filtered_detections := msg.largest_instances.filter
            fun e => decide (pyLower e.2 ∈ (parsedNames p).map pyLower) } := rfl
  refine ⟨?_, ?_, ?_⟩
  · rw [hev]
    exact congrArg some hfil
  · intro r hr pst cropOk
    rw [hev] at hr
    injection hr with hr2
    have hrf : r.filtered_detections = [] := by
      rw [← hr2]
      simpa using hfil
    constructor
    · simp [process_evaluated_objects, hrf]
    · simp [process_evaluated_objects, hrf, apply_ite]
  · intro now cst sid sd hm ha hst
    exact session_timeout_check_completes now cst sid sd hm ha hst

/-- Example detection result for the C2 witness: one laptop detection the
classifier does not deem resellable. -/
def exMsg2 : DetectionAgent.DetectionResult :=
  { image_path := "img2", timestamp := 2, session_id := "s2",
    detected_objects := [("(0, 0, 10, 10)", "laptop")],
    unique_classes := ["laptop"], detection_count := 1,
    largest_instances := [("(0, 0, 10, 10)", "laptop")] }

/-- Evaluation result the evaluator produces on `exMsg2` with classifier
output `["shoe"]`. -/
def exEval2 : AiEvaluator.EvaluationResult :=
  { image_path := "img2", timestamp := 2, session_id := "s2",
    original_objects := ["laptop"], resellable_items := ["shoe"],
    evaluation_confidence := "high", gemini_raw_response := "raw2",
    filtered_detections := [] }

/-- Example processor state for the C2 witness. -/
def exPst2 : ImageProcessor.ProcState :=
  { images_processed := 0, total_crops_created := 0, current_session := "",
    session_crop_count := 0 }

/-- Example report-coordinator session entry for the C2 witness. -/
def exSd2 : ReportCoordinator.CoordSession :=
  { start_time := 0, duration_seconds := 10, max_captures := 6,
    cooldown_tenths := 10, images_processed := 1, total_objects_found := 0,
    unique_objects := [], cropped_files := [], status := "active",
    end_time := none }

/-- Example report-coordinator state for the C2 witness. -/
def exCst2 : ReportCoordinator.CoordState :=
  { sessions := [("s2", exSd2)], current_session := "s2",
    total_sessions := 1, global_seen_objects := [],
    processing_results := [] }

open AiEvaluator ImageProcessor ReportCoordinator in
/-- Witness for C2 at a concrete session with zero resellable items. -/
theorem claim2_witness :
    (evaluate_resellability true true "raw2" (GeminiParse.strList ["shoe"])
        exMsg2).map EvaluationResult.filtered_detections = some [] ∧
    ((process_evaluated_objects exPst2 true (fun _ => true) exEval2).2 =
        ProcOutcome.noResellables ∧
      (process_evaluated_objects exPst2 true (fun _ => true)
          exEval2).1.total_crops_created = exPst2.total_crops_created) ∧
    Option.map CoordSession.status
        (assocLookup (session_timeout_check 100 exCst2).sessions "s2") =
      some "completed" :=
  ⟨(claim2_zero_resellables "raw2" (GeminiParse.strList ["shoe"]) exMsg2
      (by decide)).1,
    (claim2_zero_resellables "raw2" (GeminiParse.strList ["shoe"]) exMsg2
      (by decide)).2.1 exEval2 (by decide) exPst2 (fun _ => true),
    (claim2_zero_resellables "raw2" (GeminiParse.strList ["shoe"]) exMsg2
      (by decide)).2.2 100 exCst2 "s2" exSd2 (by decide) (by decide)
      (by decide)⟩

open PipelineCoordinator in
/-- C6: a stage-result message (image recognition, price research or
listing creation) whose session id is not in the session store is a no-op:
the state is returned unchanged and no final result is composed. -/
theorem claim6_unknown_session_noop (now : Nat) (st : PipState)
    (m : StageResultMsg)
    (h : assocLookup st.active_sessions (stageSessionId m) = none) :
    handle_stage_result now st m = (st, none) := by
  cases m with
  | recognition msg =>
    simp only [stageSessionId] at h
    show handle_image_recognition_result now st msg = (st, none)
    unfold handle_image_recognition_result
    rw [h]
  | price msg =>
    simp only [stageSessionId] at h
    show handle_price_research_result now st msg = (st, none)
    unfold handle_price_research_result
    rw [h]
  | listing msg =>
    simp only [stageSessionId] at h
    show handle_listing_creation_result now st msg = (st, none)
    unfold handle_listing_creation_result
    rw [h]

/-- Empty pipeline-coordinator state for the C6 witness. -/
def exSt6 : PipelineCoordinator.PipState :=
  { active_sessions := [], completed_sessions := 0, failed_sessions := 0 }

/-- Recognition result for an unknown session, for the C6 witness. -/
def exMsg6 : PipelineCoordinator.ImageRecognitionResult :=
  { session_id := "ghost", request_id := "r6", success := true,
    product_name := some "X", source_url := none, host := none,
    error_message := none }

open PipelineCoordinator in
/-- Witness for C6 at a concrete unknown-session message. -/
theorem claim6_witness :
    handle_stage_result 3 exSt6 (StageResultMsg.recognition exMsg6) =
      (exSt6, none) :=
  claim6_unknown_session_noop 3 exSt6 (StageResultMsg.recognition exMsg6)
    (by decide)

/-- Recognition result duplicated after the session already finished, for
the C3 counterexample and witness. -/
def exMsg3 : PipelineCoordinator.ImageRecognitionResult :=
  { session_id := "sess3", request_id := "req3", success := true,
    product_name := some "Widget", source_url := none, host := none,
    error_message := none }

/-- Original pipeline request of the C3 session. -/
def exRequest3 : PipelineCoordinator.CompletePipelineRequest :=
  { image_base64 := "img", target_platforms := ["facebook", "ebay"],
    condition_filter := "all", product_condition := "used",
    session_id := "sess3" }

/-- Already-terminal session for the C3 counterexample and witness. -/
def exSession3 : PipelineCoordinator.PipelineSession :=
  { request := exRequest3, start_time := 0,
    steps_completed := ["image_recognition_initiated",
      "image_recognition_completed"],
    image_recognition_result := some exMsg3, price_research_result := none,
    listing_creation_result := none, error_message := none,
    completed := true }

/-- Coordinator state holding the terminal C3 session. -/
def exSt3 : PipelineCoordinator.PipState :=
  { active_sessions := [("sess3", exSession3)], completed_sessions := 1,
    failed_sessions := 0 }

open PipelineCoordinator in
/-- Counterexample to C3: delivering a duplicate stage-result message for a
session that already reached its terminal state changes the session state
observably (the completed-stage list grows and the stored stage result is
overwritten), so state equality before and after fails. -/
theorem claim3_counterexample :
    (handle_image_recognition_result 5 exSt3 exMsg3).1 ≠ exSt3 := by decide

open PipelineCoordinator in
/-- C3 amended: a duplicate stage-result for a terminal session does mutate
bookkeeping — it overwrites the stored stage result and appends another
completed-stage entry — but it composes no new final result, leaves the
terminal flag and the success/failure counters unchanged, and calling
finalize again is a no-op. -/
theorem claim3_amended (now : Nat) (st : PipState)
    (msg : ImageRecognitionResult) (s : PipelineSession)
    (hm : assocLookup st.active_sessions msg.session_id = some s)
    (hc : s.completed = true) :
    handle_image_recognition_result now st msg =
      ({ st with active_sessions := pyDictInsert st.active_sessions msg.session_id { s with image_recognition_result := some msg, steps_completed := s.steps_completed ++ ["image_recognition_completed"] } }, none) ∧
    (∀ (b : Bool) (e : Option String),
      finalize_pipeline_session now
          (handle_image_recognition_result now st msg).1 msg.session_id b e =
        ((handle_image_recognition_result now st msg).1, none)) := by
  have hH : handle_image_recognition_result now st msg =
      ({ st with active_sessions := pyDictInsert st.active_sessions msg.session_id { s with image_recognition_result := some msg, steps_completed := s.steps_completed ++ ["image_recognition_completed"] } }, none) := by
    unfold handle_image_recognition_result
    split
    · rename_i heq
      rw [hm] at heq
      exact absurd heq (by simp)
    · rename_i session heq
      rw [hm] at heq
      injection heq with h2
      subst h2
      by_cases hs : msg.success = true
      · rw [if_neg fun hcon => hcon hs]
        by_cases hp : pyStrFalsy msg.product_name = true
        · rw [if_pos hp]
          exact finalize_noop now _ msg.session_id _ false _
            (assocLookup_pyDictInsert_self st.active_sessions msg.session_id _)
            hc
        · rw [if_neg hp]
      · rw [if_pos hs]
        exact finalize_noop now _ msg.session_id _ false _
          (assocLookup_pyDictInsert_self st.active_sessions msg.session_id _)
          hc
  refine ⟨hH, ?_⟩
  intro b e
  rw [hH]
  exact finalize_noop now _ msg.session_id _ b e
    (assocLookup_pyDictInsert_self st.active_sessions msg.session_id _) hc

open PipelineCoordinator in
/-- Witness for C3 amended at the concrete terminal session. -/
theorem claim3_witness :
    handle_image_recognition_result 5 exSt3 exMsg3 =
      ({ exSt3 with active_sessions := pyDictInsert exSt3.active_sessions "sess3" { exSession3 with image_recognition_result := some exMsg3, steps_completed := exSession3.steps_completed ++ ["image_recognition_completed"] } }, none) ∧
    finalize_pipeline_session 5 (handle_image_recognition_result 5 exSt3 exMsg3).1
        "sess3" false none =
      ((handle_image_recognition_result 5 exSt3 exMsg3).1, none) :=
  ⟨(claim3_amended 5 exSt3 exMsg3 exSession3 (by decide) rfl).1,
    (claim3_amended 5 exSt3 exMsg3 exSession3 (by decide) rfl).2 false none⟩

open PipelineCoordinator in
/-- C9: finalizing a live session composes the final result from exactly
the stage outputs stored in the session at that moment: the stored image
recognition, price research and listing creation results appear unchanged
(also when the run failed and `success` is false), together with the step
list, the error reason, and the elapsed time. -/
theorem claim9_finalize_composes_partials (now : Nat) (st : PipState)
    (sid : String) (s : PipelineSession) (success : Bool)
    (emsg : Option String)
    (hm : assocLookup st.active_sessions sid = some s)
    (hc : s.completed = false) :
    (finalize_pipeline_session now st sid success emsg).2 =
      some
        { session_id := s.request.session_id
          success := success
          steps_completed := s.steps_completed
          image_recognition := s.image_recognition_result
          price_research := s.price_research_result
          listing_creation := s.listing_creation_result
          error_message := emsg
          total_execution_time_ms :=
            some (((now : Int) - (s.start_time : Int)) * 1000) } := by
  rw [finalize_pipeline_session_fires now st sid s success emsg hm hc]

/-- Stored recognition result of the C9 example session. -/
def exRec9 : PipelineCoordinator.ImageRecognitionResult :=
  { session_id := "s9", request_id := "r9", success := true,
    product_name := some "Lamp", source_url := some "http://x",
    host := some "x", error_message := none }

/-- Stored price research result of the C9 example session. -/
def exPrice9 : PipelineCoordinator.PriceResearchResult :=
  { session_id := "s9", request_id := "r9", success := true,
    query := some "Lamp", comps := [], currency := "USD", total_found := 0,
    error_message := none }

/-- Live session with two completed stages for the C9 witness. -/
def exSession9 : PipelineCoordinator.PipelineSession :=
  { request :=
      { image_base64 := "b9", target_platforms := ["facebook", "ebay"],
        condition_filter := "all", product_condition := "used",
        session_id := "s9" },
    start_time := 2,
    steps_completed := ["image_recognition_initiated",
      "image_recognition_completed", "price_research_completed"],
    image_recognition_result := some exRec9,
    price_research_result := some exPrice9,
    listing_creation_result := none, error_message := none,
    completed := false }

/-- Coordinator state holding the C9 session. -/
def exSt9 : PipelineCoordinator.PipState :=
  { active_sessions := [("s9", exSession9)], completed_sessions := 0,
    failed_sessions := 0 }

open PipelineCoordinator in
/-- Witness for C9: a failing listing stage still surfaces the stored
recognition and price results in the composed final result. -/
theorem claim9_witness :
    (finalize_pipeline_session 10 exSt9 "s9" false
        (some "Listing creation failed: boom")).2 =
      some
        { session_id := "s9"
          success := false
          steps_completed := ["image_recognition_initiated",
            "image_recognition_completed", "price_research_completed"]
          image_recognition := some exRec9
          price_research := some exPrice9
          listing_creation := none
          error_message := some "Listing creation failed: boom"
          total_execution_time_ms := some (((10 : Int) - (2 : Int)) * 1000) } :=
  claim9_finalize_composes_partials 10 exSt9 "s9" exSession9 false
    (some "Listing creation failed: boom") (by decide) rfl

/-- Non-terminal session past the stall threshold, for the C5
counterexample and witness. -/
def exSession5 : PipelineCoordinator.PipelineSession :=
  { request :=
      { image_base64 := "b5", target_platforms := ["facebook", "ebay"],
        condition_filter := "all", product_condition := "used",
        session_id := "sess5" },
    start_time := 0,
    steps_completed := ["image_recognition_initiated"],
    image_recognition_result := none, price_research_result := none,
    listing_creation_result := none, error_message := none,
    completed := false }

/-- Coordinator state holding the stalled C5 session. -/
def exSt5 : PipelineCoordinator.PipState :=
  { active_sessions := [("sess5", exSession5)], completed_sessions := 0,
    failed_sessions := 0 }

open PipelineCoordinator in
/-- Counterexample to C5: sweeping a non-terminal session whose age exceeds
the stall threshold does not transition it to FAILED with reason "stalled";
the session is deleted from the store outright, so afterwards no entry for
it exists at all, let alone one carrying a "stalled" reason. -/
theorem claim5_counterexample :
    assocLookup (cleanup_old_sessions 1000 exSt5).active_sessions "sess5" =
        none ∧
      ¬ ∃ sd, assocLookup (cleanup_old_sessions 1000 exSt5).active_sessions
          "sess5" = some sd ∧ sd.error_message = some "stalled" := by
  have h0 : assocLookup (cleanup_old_sessions 1000 exSt5).active_sessions
      "sess5" = none := by decide
  refine ⟨h0, ?_⟩
  rintro ⟨sd, h1, _⟩
  rw [h0] at h1
  exact absurd h1 (by simp)

open PipelineCoordinator in
/-- C5 amended: at sweep time, a non-terminal session older than the
900-second stall threshold is removed from the store (not finalized; no
record with reason "stalled" remains) and is counted into the
failed-session counter; a terminal session older than the 300-second grace
window, measured from session start (the code keeps no terminal
timestamp), is removed from the store. -/
theorem claim5_amended (now : Nat) (st : PipState) (sid : String)
    (s : PipelineSession) (hnd : keysNodup st.active_sessions)
    (hm : assocLookup st.active_sessions sid = some s) :
    ((s.completed = false ∧ now - s.start_time > 900) →
      assocLookup (cleanup_old_sessions now st).active_sessions sid = none ∧
      st.failed_sessions < (cleanup_old_sessions now st).failed_sessions) ∧
    ((s.completed = true ∧ now - s.start_time > 300) →
      assocLookup (cleanup_old_sessions now st).active_sessions sid = none) := by
  have hfl : assocLookup (cleanup_old_sessions now st).active_sessions sid =
      if !cleanupRemove now (sid, s) then some s else none := by
    unfold cleanup_old_sessions
    exact assocLookup_filter st.active_sessions _ sid s hnd hm
  constructor
  · rintro ⟨hc, hage⟩
    constructor
    · rw [hfl, if_neg (by simp [cleanupRemove, hc, hage])]
    · have hmem : (sid, s) ∈ st.active_sessions.filter
          (fun e => !e.2.completed && decide (now - e.2.start_time > 900)) := by
        rw [List.mem_filter]
        exact ⟨mem_of_assocLookup_eq_some hm, by simp [hc, hage]⟩
      have hlen : 0 < (st.active_sessions.filter
          (fun e => !e.2.completed && decide (now - e.2.start_time > 900))).length :=
        List.length_pos.2 (List.ne_nil_of_mem hmem)
      exact Nat.lt_add_of_pos_right hlen
  · rintro ⟨hc, hage⟩
    rw [hfl, if_neg (by simp [cleanupRemove, hc, hage])]

open PipelineCoordinator in
/-- Witness for C5 amended at the concrete stalled session. -/
theorem claim5_witness :
    assocLookup (cleanup_old_sessions 1000 exSt5).active_sessions "sess5" =
        none ∧
      exSt5.failed_sessions < (cleanup_old_sessions 1000 exSt5).failed_sessions :=
  (claim5_amended 1000 exSt5 "sess5" exSession5 (by decide) (by decide)).1
    ⟨rfl, by decide⟩

/-- Detection-agent state with the YOLO model unavailable, for the C4
counterexample. -/
def exDetSt4 : DetectionAgent.DetState :=
  { modelLoaded := false, images_processed := 0, current_session := "",
    global_seen_objects := [], processed_files := [] }

/-- Captured-image message for the C4 counterexample and witness. -/
def exCap4 : DetectionAgent.CapturedImage :=
  { filename := "f.jpg", timestamp := 1, file_path := "captures/f.jpg",
    capture_index := 0, session_id := "sess4" }

open DetectionAgent in
/-- Counterexample to C4: in the camera pipeline, when the detector model
is unavailable the handler drops the captured image silently — the state is
unchanged and nothing at all is emitted — so no session reaches a FAILED
terminal state with a reason naming the detector (this pipeline stores its
sessions in the report coordinator, which never receives anything). -/
theorem claim4_counterexample :
    process_captured_image exDetSt4 true [("(0, 0, 10, 10)", "laptop")]
        exCap4 = (exDetSt4, none) := by decide

open DetectionAgent ImageRecognitionAgent PipelineCoordinator in
/-- C4 amended: detector unavailability never lets a downstream stage run,
but only the API pipeline records a failure.  (a) In the camera pipeline an
unloaded YOLO model makes the handler return with no emission and no state
change.  (b) In the API pipeline, a failed health check makes the
recognition agent emit exactly one message: the error result with reason
"Image Recognition API is not available" — in particular no price-research
request.  (c) The pipeline coordinator, receiving that error result for a
live session, finalizes it as failed: the composed final result carries
success false and the reason naming the recognition API, and the
failed-session counter is incremented. -/
theorem claim4_amended :
    (∀ (st : DetState) (fe : Bool) (dets : List (String × String))
        (msg : CapturedImage),
      st.modelLoaded = false →
      process_captured_image st fe dets msg = (st, none)) ∧
    (∀ (req : ImageRecognitionRequest) (resp : ApiResponse),
      process_image_recognition false false resp req =
        [RecEmission.toSender (apiUnavailableResult req)] ∧
      (apiUnavailableResult req).success = false ∧
      (apiUnavailableResult req).error_message =
        some "Image Recognition API is not available") ∧
    (∀ (now : Nat) (pst : PipState) (req : ImageRecognitionRequest)
        (s : PipelineSession),
      assocLookup pst.active_sessions req.session_id = some s →
      s.completed = false →
      (handle_image_recognition_result now pst (apiUnavailableResult req)).2 =
        some
          { session_id := s.request.session_id
            success := false
            steps_completed :=
              s.steps_completed ++ ["image_recognition_completed"]
            image_recognition := some (apiUnavailableResult req)
            price_research := s.price_research_result
            listing_creation := s.listing_creation_result
            error_message :=
              some "Image recognition failed: Image Recognition API is not available"
            total_execution_time_ms :=
              some (((now : Int) - (s.start_time : Int)) * 1000) } ∧
      (handle_image_recognition_result now pst
          (apiUnavailableResult req)).1.failed_sessions =
        pst.failed_sessions + 1) := by
  refine ⟨?_, ?_, ?_⟩
  · intro st fe dets msg h
    unfold process_captured_image
    rw [if_pos (by simp [h])]
  · intro req resp
    refine ⟨?_, rfl, rfl⟩
    unfold process_image_recognition
    rw [if_pos ⟨by simp, by simp⟩]
  · intro now pst req s hm hc
    have hm2 : assocLookup pst.active_sessions
        (apiUnavailableResult req).session_id = some s := hm
    have hH : handle_image_recognition_result now pst (apiUnavailableResult req) =
        finalize_pipeline_session now
          { pst with active_sessions := pyDictInsert pst.active_sessions (apiUnavailableResult req).session_id { s with image_recognition_result := some (apiUnavailableResult req), steps_completed := s.steps_completed ++ ["image_recognition_completed"] } }
          (apiUnavailableResult req).session_id false
          (some ("Image recognition failed: " ++
            pyOptStr (apiUnavailableResult req).error_message)) := by
      unfold handle_image_recognition_result
      split
      · rename_i heq
        rw [hm2] at heq
        exact absurd heq (by simp)
      · rename_i session heq
        rw [hm2] at heq
        injection heq with h2
        subst h2
        rw [if_pos (by simp [apiUnavailableResult])]
    rw [hH, finalize_pipeline_session_fires now _
      (apiUnavailableResult req).session_id
      ({ s with image_recognition_result := some (apiUnavailableResult req), steps_completed := s.steps_completed ++ ["image_recognition_completed"] })
      false _
      (assocLookup_pyDictInsert_self pst.active_sessions
        (apiUnavailableResult req).session_id _) hc]
    exact ⟨rfl, rfl⟩

/-- Detection-agent state for the C4 witness. -/
def exDetSt4w : DetectionAgent.DetState :=
  { modelLoaded := false, images_processed := 2, current_session := "x",
    global_seen_objects := ["laptop"], processed_files := ["a.jpg"] }

/-- Recognition request for the C4 witness. -/
def exReq4 : ImageRecognitionAgent.ImageRecognitionRequest :=
  { image_base64 := "b64", session_id := "s4", request_id := "r4" }

/-- Live pipeline session awaiting recognition, for the C4 witness. -/
def exSession4 : PipelineCoordinator.PipelineSession :=
  { request :=
      { image_base64 := "b64", target_platforms := ["facebook", "ebay"],
        condition_filter := "all", product_condition := "used",
        session_id := "s4" },
    start_time := 3,
    steps_completed := ["image_recognition_initiated"],
    image_recognition_result := none, price_research_result := none,
    listing_creation_result := none, error_message := none,
    completed := false }

/-- Pipeline-coordinator state holding the C4 witness session. -/
def exPst4 : PipelineCoordinator.PipState :=
  { active_sessions := [("s4", exSession4)], completed_sessions := 0,
    failed_sessions := 0 }

open DetectionAgent ImageRecognitionAgent PipelineCoordinator in
/-- Witness for C4 amended: the silent drop on the camera side and the
FAILED finalization on the API side, at concrete inputs. -/
theorem claim4_witness :
    process_captured_image exDetSt4w true [] exCap4 = (exDetSt4w, none) ∧
    ((handle_image_recognition_result 7 exPst4 (apiUnavailableResult exReq4)).2 =
        some
          { session_id := "s4"
            success := false
            steps_completed := ["image_recognition_initiated",
              "image_recognition_completed"]
            image_recognition := some (apiUnavailableResult exReq4)
            price_research := none
            listing_creation := none
            error_message :=
              some "Image recognition failed: Image Recognition API is not available"
            total_execution_time_ms := some (((7 : Int) - (3 : Int)) * 1000) } ∧
      (handle_image_recognition_result 7 exPst4
          (apiUnavailableResult exReq4)).1.failed_sessions =
        exPst4.failed_sessions + 1) :=
  ⟨claim4_amended.1 exDetSt4w true [] exCap4 rfl,
    claim4_amended.2.2 7 exPst4 exReq4 exSession4 (by decide) rfl⟩

open ReportCoordinator ImageProcessor in
/-- C10: the report coordinator aggregates results for at most one session
at a time: a processing result whose session id differs from the single
current session is dropped with a warning and mutates no state — the
handler returns the state unchanged — so results for previously started
sessions, even ones still present and active in the store, are discarded
once a newer session is current. -/
theorem claim10_single_session_drop (st : CoordState)
    (msg : ProcessingResult) (h : st.current_session ≠ msg.session_id) :
    coordinate_processing_result st msg = st := by
  unfold coordinate_processing_result
  rw [if_pos h]

/-- Processing result addressed to a superseded session, for the C10
witness. -/
def exMsg10 : ImageProcessor.ProcessingResult :=
  { original_image_path := "img10", timestamp := 9, session_id := "old",
    resellable_objects := ["laptop"], cropped_files := ["9_1_laptop.jpg"],
    processing_summary := [], total_objects_processed := 1 }

/-- Known, still-active session entry for the C10 witness. -/
def exSd10 : ReportCoordinator.CoordSession :=
  { start_time := 0, duration_seconds := 10, max_captures := 6,
    cooldown_tenths := 10, images_processed := 0, total_objects_found := 0,
    unique_objects := [], cropped_files := [], status := "active",
    end_time := none }

/-- Coordinator state whose current session superseded the known "old"
session, for the C10 witness. -/
def exCst10 : ReportCoordinator.CoordState :=
  { sessions := [("old", exSd10), ("new", exSd10)],
    current_session := "new", total_sessions := 2,
    global_seen_objects := [], processing_results := [] }

open ReportCoordinator in
/-- Witness for C10: a result for the known, active, non-current session
"old" is dropped without mutation. -/
theorem claim10_witness :
    coordinate_processing_result exCst10 exMsg10 = exCst10 :=
  claim10_single_session_drop exCst10 exMsg10 (by decide)

end Claims

end Decluttered
